import Mathlib

/-!
Verification of the background-sync core of the obsidian-ocr-plugin
(Notebook Scanner).  The definitions below are a shallow embedding of the
TypeScript source:

* `SyncState` with `isSynced` / `markSynced` / `prune`
  (`src/sync-state.ts`, class `SyncStateManager`);
* the `JobPoller` scheduler (`src/ui/queue-modal.ts`): `poll`,
  `syncCompletedJobs`, `syncJob`, `syncNow`, `scheduleNextPoll`'s delay
  computation, `start` and `resumeAfterError`;
* `NoteCreator.getUniquePath` (`src/ui/queue-modal.ts`);
* `SyncClient.uploadImages` and `SyncClient.request` plus the
  `parseApiError` taxonomy (`sync-client.ts` / `errors.ts`).

ISO-8601 timestamps are modelled as milliseconds since the epoch (`Nat`);
JavaScript millisecond arithmetic in `prune` is carried out over `Int`.
Remote calls and vault writes are modelled as oracle functions passed in
as parameters; the traces record which remote operations were invoked.
-/

/-- `SyncedJob` from the plugin's type definitions.  The ISO `syncedAt`
string is modelled as milliseconds since the epoch. -/
structure SyncedJob where
  jobId : String
  syncedAt : Nat
  notePath : String
deriving Repr, DecidableEq

/-- `SyncState`: the persisted ledger (list of `SyncedJob` plus the last
sync time). -/
structure SyncState where
  syncedJobs : List SyncedJob
  lastSyncTime : Option Nat
deriving Repr, DecidableEq

namespace SyncState

/-- `SyncStateManager.isSynced`. -/
def isSynced (s : SyncState) (jobId : String) : Bool :=
  s.syncedJobs.any (fun job => job.jobId == jobId)

/-- `SyncStateManager.markSynced`.  The returned `Bool` records whether
the persister callback was invoked (the early-return duplicate path does
not persist). -/
def markSynced (s : SyncState) (jobId : String) (notePath : String) (now : Nat) :
    SyncState × Bool :=
  if s.isSynced jobId then (s, false)
  else
    ({ syncedJobs := s.syncedJobs.concat { jobId := jobId, syncedAt := now, notePath := notePath },
       lastSyncTime := some now },
     true)

/-- `SyncStateManager.prune`: returns the new state, the pruned count,
and whether the persister callback was invoked. -/
def prune (s : SyncState) (olderThanDays : Nat) (now : Nat) : SyncState × Nat × Bool :=
  let cutoff : Int := (now : Int) - (olderThanDays : Int) * 24 * 60 * 60 * 1000
  let kept := s.syncedJobs.filter (fun job => decide (cutoff < (job.syncedAt : Int)))
  let prunedCount := s.syncedJobs.length - kept.length
  ({ s with syncedJobs := kept }, prunedCount, decide (0 < prunedCount))

/-- Number of ledger records carrying a given job identifier. -/
def countFor (s : SyncState) (jobId : String) : Nat :=
  (s.syncedJobs.filter (fun job => job.jobId == jobId)).length

end SyncState

/-- Delay computed by `JobPoller.scheduleNextPoll`: the configured
interval, raised to `min(BASE_BACKOFF_MS * 2^(errors-1), 300000)` when
there are consecutive errors (`BASE_BACKOFF_MS = 5000`). -/
def nextPollDelay (pollInterval : Nat) (consecutiveErrors : Nat) : Nat :=
  if 0 < consecutiveErrors then
    let backoff := min (5000 * 2 ^ (consecutiveErrors - 1)) 300000
    max pollInterval backoff
  else pollInterval

/-- Candidate path built by the collision loop: the base path without its
`.md` extension, a space, the counter, and the extension. -/
def mkSuffixPath (pathWithoutExt : String) (counter : Nat) : String :=
  pathWithoutExt ++ " " ++ toString counter ++ ".md"

/-- The `while` loop of `NoteCreator.getUniquePath`.  The vault is the
list of existing file paths (`vault.getAbstractFileByPath` tests
membership).  The loop tests the candidate for the current counter; if it
exists it increments the counter, throws `'Too many files with the same
name'` once the counter passes the safety limit 100, and otherwise
retries.  `fuel` makes the recursion structural; the fuel-exhausted
branch is unreachable for the initial call (`counter = 1`, `fuel = 100`)
because the source's own `counter > 100` check fires first, and it
returns that same error. -/
def uniqueLoop (vault : List String) (pathWithoutExt : String)
    (counter : Nat) (fuel : Nat) : Except String String :=
  match fuel with
  | 0 => .error "Too many files with the same name"
  | fuel' + 1 =>
    let newPath := mkSuffixPath pathWithoutExt counter
    if vault.contains newPath then
      if 100 < counter + 1 then .error "Too many files with the same name"
      else uniqueLoop vault pathWithoutExt (counter + 1) fuel'
    else .ok newPath

/-- `NoteCreator.getUniquePath`: return the base path when free, else run
the suffix loop on the path with its `.md` extension stripped
(`basePath.slice(0, -ext.length)`). -/
def getUniquePath (vault : List String) (basePath : String) : Except String String :=
  if vault.contains basePath then
    uniqueLoop vault (basePath.dropRight 3) 1 100
  else .ok basePath

/-- Repeated materialization at one sanitized base name: each round asks
`getUniquePath` for a free path and then creates the file there
(`vault.create`), extending the vault. -/
def materializeMany (basePath : String) (vault : List String) : Nat → Except String (List String)
  | 0 => .ok vault
  | n + 1 =>
    match getUniquePath vault basePath with
    | .error e => .error e
    | .ok p => materializeMany basePath (p :: vault) n

/-- `JobStatus` union type. -/
inductive JobStatus
  | pending
  | processing
  | completed
  | failed
deriving Repr, DecidableEq

/-- `Job` from the plugin's type definitions. -/
structure Job where
  id : String
  status : JobStatus
  createdAt : String
  startedAt : Option String
  completedAt : Option String
  hasResult : Bool
  filename : Option String
  error : Option String
  attempts : Option Nat
deriving Repr, DecidableEq

/-- `NoteCategory` union type. -/
inductive NoteCategory
  | meeting
  | lecture
  | brainstorm
  | todo
  | journal
  | sketch
  | other
deriving Repr, DecidableEq

/-- `ProcessedNote` from the plugin's type definitions. -/
structure ProcessedNote where
  jobId : String
  title : String
  content : String
  tags : List String
  date : Option String
  category : NoteCategory
  summary : String
  processedAt : String
deriving Repr, DecidableEq

/-- Result of `NoteCreator.createNote`. -/
structure CreateNoteResult where
  success : Bool
  filePath : Option String
  error : Option String
deriving Repr, DecidableEq

/-- One element of `SyncResult.results`. -/
structure SyncJobRecord where
  jobId : String
  success : Bool
  notePath : Option String
  error : Option String
deriving Repr, DecidableEq

/-- `SyncResult` returned by a sync cycle. -/
structure SyncResult where
  syncedCount : Nat
  failedCount : Nat
  results : List SyncJobRecord
deriving Repr, DecidableEq

/-- Trace of the remote/vault operations a cycle performed: whether the
completed-jobs listing (`getJobs('completed')`) was requested, which job
ids had their result fetched (`getResult`), and which had note creation
attempted (`createNote`). -/
structure Trace where
  listCalled : Bool
  fetched : List String
  created : List String
deriving Repr, DecidableEq

/-- The empty trace: no remote operation performed. -/
def Trace.empty : Trace := ⟨false, [], []⟩

/-- JavaScript `x || dflt` on an optional string (`undefined` and `""`
are both falsy). -/
def jsOr (o : Option String) (dflt : String) : String :=
  match o with
  | some s => if s == "" then dflt else s
  | none => dflt

/-- `OrganizationStyle` union type. -/
inductive OrganizationStyle
  | flat
  | date
  | category
deriving Repr, DecidableEq

/-- `FrontmatterFormat` union type (`'yaml' | 'none'`; the second
constructor is `noFrontmatter` to avoid clashing with `Option.none`). -/
inductive FrontmatterFormat
  | yaml
  | noFrontmatter
deriving Repr, DecidableEq

/-- `PluginSettings` from the plugin's type definitions. -/
structure PluginSettings where
  serviceUrl : String
  apiKey : String
  outputFolder : String
  attachmentFolder : String
  organizationStyle : OrganizationStyle
  pollInterval : Nat
  autoSync : Bool
  keepLocalCopy : Bool
  notifyOnSync : Bool
  noteTemplate : String
  includeSourceImage : Bool
  frontmatterFormat : FrontmatterFormat
deriving Repr, DecidableEq

/-- `JobPoller.syncJob`: fetch the result for one job, create the note,
and on success mark the job synced; any failure is caught and recorded in
the returned `SyncJobRecord`.  The remote `getResult` call and the vault
write are the oracles `fetch` and `create`.  Returns the record, the
updated ledger, the fetched-ids trace, and the created-ids trace. -/
def syncJob (fetch : String → Except String ProcessedNote)
    (create : ProcessedNote → CreateNoteResult) (now : Nat)
    (ledger : SyncState) (job : Job) :
    SyncJobRecord × SyncState × List String × List String :=
  match fetch job.id with
  | .error e =>
    ({ jobId := job.id, success := false, notePath := none, error := some e },
     ledger, [job.id], [])
  | .ok processedNote =>
    let createResult := create processedNote
    if createResult.success then
      ({ jobId := job.id, success := true, notePath := createResult.filePath, error := none },
       (ledger.markSynced job.id (createResult.filePath.getD "") now).1,
       [job.id], [job.id])
    else
      ({ jobId := job.id, success := false, notePath := none,
         error := some (jsOr createResult.error "Failed to create note") },
       ledger, [job.id], [job.id])

/-- The sequential per-job loop of `JobPoller.syncCompletedJobs`. -/
def runJobs (fetch : String → Except String ProcessedNote)
    (create : ProcessedNote → CreateNoteResult) (now : Nat) :
    SyncState → List Job → List SyncJobRecord × SyncState × List String × List String
  | ledger, [] => ([], ledger, [], [])
  | ledger, job :: rest =>
    let r := syncJob fetch create now ledger job
    let r' := runJobs fetch create now r.2.1 rest
    (r.1 :: r'.1, r'.2.1, r.2.2.1 ++ r'.2.2.1, r.2.2.2 ++ r'.2.2.2)

/-- `JobPoller.syncCompletedJobs`: list completed jobs (the outcome of the
remote `getJobs('completed')` call is `listOutcome`; a listing failure
propagates as the thrown error), filter out jobs already in the ledger,
then process the remainder sequentially. -/
def syncCompletedJobs (listOutcome : Except String (List Job))
    (fetch : String → Except String ProcessedNote)
    (create : ProcessedNote → CreateNoteResult) (now : Nat) (ledger : SyncState) :
    Except String SyncResult × SyncState × Trace :=
  match listOutcome with
  | .error e => (.error e, ledger, ⟨true, [], []⟩)
  | .ok completedJobs =>
    let unsyncedJobs := completedJobs.filter (fun job => !(ledger.isSynced job.id))
    if unsyncedJobs.isEmpty then
      (.ok ⟨0, 0, []⟩, ledger, ⟨true, [], []⟩)
    else
      let r := runJobs fetch create now ledger unsyncedJobs
      (.ok ⟨(r.1.filter (fun x => x.success)).length,
            (r.1.filter (fun x => !x.success)).length,
            r.1⟩,
       r.2.1, ⟨true, r.2.2.1, r.2.2.2⟩)

/-- The `JobPoller` scheduler state: `timerArmed` models
`intervalId !== null` (a future poll is scheduled), the three flags and
the consecutive-error counter are the corresponding fields. -/
structure PollerState where
  timerArmed : Bool
  isPolling : Bool
  isPaused : Bool
  isStopped : Bool
  consecutiveErrors : Nat
deriving Repr, DecidableEq

/-- `JobPoller.poll`, entered when the armed timer fires (so the armed
timer is consumed).  Paused or re-entrant polls re-arm the timer without
doing work; auto-sync off returns without re-arming.  Otherwise the cycle
runs; on success the error counter resets, on failure it increments and
at `MAX_CONSECUTIVE_ERRORS = 5` the `isStopped` flag is set — but the
`finally` block of the source still runs `scheduleNextPoll()` on every
path out of the `try`, so the timer is re-armed even then. -/
def poll (settings : PluginSettings) (listOutcome : Except String (List Job))
    (fetch : String → Except String ProcessedNote)
    (create : ProcessedNote → CreateNoteResult) (now : Nat)
    (s : PollerState) (ledger : SyncState) :
    PollerState × SyncState × Trace :=
  let s0 : PollerState := { s with timerArmed := false }
  if s0.isPaused || s0.isPolling then
    ({ s0 with timerArmed := true }, ledger, Trace.empty)
  else if !settings.autoSync then
    (s0, ledger, Trace.empty)
  else
    let r := syncCompletedJobs listOutcome fetch create now ledger
    match r.1 with
    | .ok _ =>
      ({ s0 with consecutiveErrors := 0, isPolling := false, timerArmed := true },
       r.2.1, r.2.2)
    | .error _ =>
      let errs := s0.consecutiveErrors + 1
      if 5 ≤ errs then
        ({ s0 with
            consecutiveErrors := errs
            isStopped := true
            isPolling := false
            timerArmed := true },
         r.2.1, r.2.2)
      else
        ({ s0 with consecutiveErrors := errs, isPolling := false, timerArmed := true },
         r.2.1, r.2.2)

/-- `JobPoller.syncNow`: manual sync, mutually excluded from a scheduled
poll by the `isPolling` flag; when one is in flight it returns the empty
result without touching anything. -/
def syncNow (listOutcome : Except String (List Job))
    (fetch : String → Except String ProcessedNote)
    (create : ProcessedNote → CreateNoteResult) (now : Nat)
    (s : PollerState) (ledger : SyncState) :
    Except String SyncResult × PollerState × SyncState × Trace :=
  if s.isPolling then
    (.ok ⟨0, 0, []⟩, s, ledger, Trace.empty)
  else
    let r := syncCompletedJobs listOutcome fetch create now ledger
    (r.1, { s with isPolling := false }, r.2.1, r.2.2)

/-- `JobPoller.start`: no-op when already running or auto-sync disabled,
else arm the timer via `scheduleNextPoll`. -/
def start (settings : PluginSettings) (s : PollerState) : PollerState :=
  if s.timerArmed then s
  else if !settings.autoSync then s
  else { s with timerArmed := true }

/-- `JobPoller.resumeAfterError`: only valid from the stopped state;
resets the counter, clears the stop flag and restarts. -/
def resumeAfterError (settings : PluginSettings) (s : PollerState) : PollerState :=
  if !s.isStopped then s
  else start settings { s with consecutiveErrors := 0, isStopped := false }

/-- Plugin settings with auto-sync enabled and the default 30 s
interval. -/
def exampleSettings : PluginSettings :=
  { serviceUrl := "https://service.example", apiKey := "key",
    outputFolder := "Notebook Scans",
    attachmentFolder := "Notebook Scans/attachments",
    organizationStyle := .flat, pollInterval := 30000, autoSync := true,
    keepLocalCopy := true, notifyOnSync := false, noteTemplate := "",
    includeSourceImage := false, frontmatterFormat := .yaml }

/-- Oracle stand-ins for a cycle whose listing already fails (never
consulted). -/
def fetchUnused : String → Except String ProcessedNote := fun _ => .error "unused"

/-- See `fetchUnused`. -/
def createUnused : ProcessedNote → CreateNoteResult := fun _ => ⟨false, none, none⟩

/-- An empty ledger. -/
def emptyLedger : SyncState := ⟨[], none⟩

/-- Poller state with four consecutive failures already recorded and the
timer armed for the next (fifth) poll. -/
def stateAfterFourFailures : PollerState :=
  { timerArmed := true, isPolling := false, isPaused := false,
    isStopped := false, consecutiveErrors := 4 }

/-- The fields of a browser `File` the upload pipeline reads. -/
structure FileInfo where
  name : String
  contentType : String
  size : Nat
deriving Repr, DecidableEq

/-- Response of `POST /api/upload/signed-url`. -/
structure SignedUrlResponse where
  signedUrl : String
  path : String
deriving Repr, DecidableEq

/-- `UploadMetadata` accumulated for finalization. -/
structure UploadMetadata where
  path : String
  filename : String
  contentType : String
  size : Nat
deriving Repr, DecidableEq

/-- One entry of `UploadResponse.failed`. -/
structure FailedUpload where
  filename : String
  reason : String
deriving Repr, DecidableEq

/-- Response of `POST /api/upload/finalize`. -/
structure FinalizeResponse where
  jobIds : List String
  message : String
deriving Repr, DecidableEq

/-- `UploadResponse` returned by `uploadImages`. -/
structure UploadResponse where
  jobIds : List String
  message : String
  failed : Option (List FailedUpload)
deriving Repr, DecidableEq

/-- JavaScript `s || dflt` on a plain string (`""` is falsy); used for
`file.type || 'image/jpeg'`. -/
def jsOrStr (s : String) (dflt : String) : String :=
  if s == "" then dflt else s

/-- Steps 1 and 2 of `uploadImages` for each file in order: request a
signed URL (`signedUrl` oracle, `getSignedUrl`), transfer the bytes
(`putFile` oracle, `uploadToSignedUrl`); a failure of either step records
the file in `failed` with the thrown message and excludes it from the
metadata batch. -/
def uploadLoop (signedUrl : FileInfo → Except String SignedUrlResponse)
    (putFile : String → FileInfo → Except String Unit) :
    List FileInfo → List UploadMetadata × List FailedUpload
  | [] => ([], [])
  | file :: rest =>
    let r := uploadLoop signedUrl putFile rest
    match signedUrl file with
    | .error e => (r.1, ⟨file.name, e⟩ :: r.2)
    | .ok su =>
      match putFile su.signedUrl file with
      | .error e => (r.1, ⟨file.name, e⟩ :: r.2)
      | .ok _ =>
        (⟨su.path, file.name, jsOrStr file.contentType "image/jpeg", file.size⟩ :: r.1,
         r.2)

/-- `SyncClient.uploadImages`: run steps 1–2 per file, return early when
nothing transferred, otherwise issue the single atomic finalize call; a
finalize failure yields no job ids and adds every transferred file to
`failed` with reason `'Finalization failed'`. -/
def uploadImages (signedUrl : FileInfo → Except String SignedUrlResponse)
    (putFile : String → FileInfo → Except String Unit)
    (finalize : List UploadMetadata → Except String FinalizeResponse)
    (files : List FileInfo) : UploadResponse :=
  let r := uploadLoop signedUrl putFile files
  if r.1.isEmpty then
    { jobIds := [], message := "No files uploaded successfully",
      failed := if r.2.isEmpty then none else some r.2 }
  else
    match finalize r.1 with
    | .ok fr =>
      { jobIds := fr.jobIds, message := fr.message,
        failed := if r.2.isEmpty then none else some r.2 }
    | .error _ =>
      { jobIds := [], message := "Failed to finalize uploads",
        failed := some (r.2 ++ r.1.map (fun m => ⟨m.filename, "Finalization failed"⟩)) }

/-- The typed error kinds of the taxonomy: one per `PluginError` subclass
in errors.ts. -/
inductive ErrorKind
  | authentication
  | notFound
  | validation
  | rateLimited
  | fileTooLarge
  | unsupportedFormat
  | jobNotFailed
  | imageExpired
  | network
  | internal
deriving Repr, DecidableEq

/-- The structured error body `{code, message}` (`ApiError`); the
`details` payload only feeds the constructed messages, not the selected
kind, and is elided. -/
structure ApiErrorBody where
  code : String
  message : String
deriving Repr, DecidableEq

/-- The kind selected by `parseApiError` in errors.ts: dispatch on the
structured body's `code` when the body is present (unknown codes fall to
`InternalError`), else fall back on the HTTP status code.  The message
and details carried by each constructed `PluginError` are elided — this
captures which taxonomy kind is chosen. -/
def parseApiErrorKind (statusCode : Nat) (body : Option ApiErrorBody) : ErrorKind :=
  match body with
  | some err =>
    if err.code == "INVALID_API_KEY" then .authentication
    else if err.code == "NOT_FOUND" then .notFound
    else if err.code == "VALIDATION_ERROR" then .validation
    else if err.code == "RATE_LIMIT_EXCEEDED" then .rateLimited
    else if err.code == "FILE_TOO_LARGE" then .fileTooLarge
    else if err.code == "UNSUPPORTED_FORMAT" then .unsupportedFormat
    else if err.code == "JOB_NOT_FAILED" then .jobNotFailed
    else if err.code == "IMAGE_EXPIRED" then .imageExpired
    else .internal
  | none =>
    if statusCode == 401 then .authentication
    else if statusCode == 404 then .notFound
    else if statusCode == 413 then .fileTooLarge
    else if statusCode == 429 then .rateLimited
    else .internal

/-- An HTTP response as `SyncClient.request` reads it: the status and the
two fields of `response.json` the error path consults — the top-level
`message` (read as `errorBody?.message`) and the structured `error`
object (which `parseApiError` would dispatch on, were it called). -/
structure HttpResponse where
  status : Nat
  jsonMessage : Option String
  jsonError : Option ApiErrorBody
deriving Repr, DecidableEq

/-- What `SyncClient.request` throws: a plain untyped `Error` (just a
message) or one of the typed `PluginError` subclasses. -/
inductive ClientError
  | plainError (message : String)
  | pluginError (kind : ErrorKind) (message : String)
deriving Repr, DecidableEq

/-- Whether a thrown error is one of the typed taxonomy kinds. -/
def ClientError.isTypedKind : ClientError → Bool
  | .pluginError _ _ => true
  | .plainError _ => false

/-- `SyncClient.request`: a transport failure is wrapped in a plain
`Error('Network error: …')`; a response with status ≥ 400 throws a plain
`Error` whose message is `response.json.message` when truthy, else
`'Request failed with status N'`.  (`parseApiError` is never invoked.)
The 204-no-content special case returns an empty object and is irrelevant
to the error paths. -/
def request (transport : Except String HttpResponse) : Except ClientError HttpResponse :=
  match transport with
  | .error e => .error (.plainError ("Network error: " ++ e))
  | .ok response =>
    if 400 ≤ response.status then
      .error (.plainError
        (jsOr response.jsonMessage ("Request failed with status " ++ toString response.status)))
    else .ok response

/-! ## Theorems -/
lemma isSynced_eq_false_iff (s : SyncState) (i : String) :
    s.isSynced i = false ↔ ∀ j ∈ s.syncedJobs, j.jobId ≠ i := by
  simp [SyncState.isSynced, List.any_eq_true]

lemma countFor_eq_zero_of_not_synced (s : SyncState) (i : String)
    (h : s.isSynced i = false) :
    s.countFor i = 0 := by
  rw [isSynced_eq_false_iff] at h
  simp only [SyncState.countFor, List.length_eq_zero, List.filter_eq_nil]
  intro j hj
  simpa using h j hj

lemma length_filter_not_eq_sub (l : List α) (p : α → Bool) :
    (l.filter (fun x => !p x)).length = l.length - (l.filter p).length := by
  induction l with
  | nil => simp
  | cons a t ih =>
      have hle : (t.filter p).length ≤ t.length := t.length_filter_le p
      by_cases h : p a
      · simp [List.filter_cons, h, ih, Nat.succ_sub hle]
      · simp only [List.filter_cons, h, Bool.not_false, if_true, if_false]
        simp only [List.length_cons, ih, Bool.false_eq_true, ite_false]
        omega

lemma markSynced_of_synced (s : SyncState) (i loc : String) (t : Nat)
    (h : s.isSynced i = true) :
    s.markSynced i loc t = (s, false) := by
  simp [SyncState.markSynced, h]

/-- Claim C3: for every job id `i`, calling `markSynced` twice yields
exactly one ledger record for `i`; the second call is a silent no-op that
does not invoke the persister; and distinctness of the stored job ids is
preserved, so the ledger keeps at most one record per identifier. -/
theorem markSynced_twice_single_record (s : SyncState) (i loc loc' : String) (t t' : Nat)
    (h : s.isSynced i = false)
    (hinv : (s.syncedJobs.map SyncedJob.jobId).Nodup) :
    (((s.markSynced i loc t).1.markSynced i loc' t').1.countFor i = 1)
    ∧ (((s.markSynced i loc t).1.markSynced i loc' t').2 = false)
    ∧ ((((s.markSynced i loc t).1.markSynced i loc' t').1.syncedJobs.map
        SyncedJob.jobId).Nodup) := by
  have hstep : (s.markSynced i loc t).1
      = { syncedJobs := s.syncedJobs.concat { jobId := i, syncedAt := t, notePath := loc },
          lastSyncTime := some t } := by
    simp [SyncState.markSynced, h]
  have hsynced : (s.markSynced i loc t).1.isSynced i = true := by
    rw [hstep]
    simp [SyncState.isSynced]
  have hsecond : (s.markSynced i loc t).1.markSynced i loc' t'
      = ((s.markSynced i loc t).1, false) :=
    markSynced_of_synced _ i loc' t' hsynced
  refine ⟨?_, ?_, ?_⟩
  · rw [hsecond, hstep]
    have h0 := countFor_eq_zero_of_not_synced s i h
    simp only [SyncState.countFor] at h0 ⊢
    simp [List.concat_eq_append, List.filter_append, List.length_append, h0]
  · rw [hsecond]
  · rw [hsecond, hstep]
    have hnotmem : i ∉ s.syncedJobs.map SyncedJob.jobId := by
      rw [isSynced_eq_false_iff] at h
      intro hmem
      obtain ⟨j, hj, hji⟩ := List.mem_map.mp hmem
      exact h j hj hji
    simp [List.concat_eq_append, List.nodup_append, hinv, hnotmem]

/-- Claim C3 witness: concrete double-mark on an initially empty ledger. -/
theorem markSynced_twice_single_record_witness :
    (SyncState.mk [] none).isSynced "job-1" = false
    ∧ ((((SyncState.mk [] none).syncedJobs.map SyncedJob.jobId).Nodup)
    ∧ (((((SyncState.mk [] none).markSynced "job-1" "Notes/a.md" 5).1.markSynced
          "job-1" "Notes/b.md" 9).1.countFor "job-1" = 1)
       ∧ (((((SyncState.mk [] none).markSynced "job-1" "Notes/a.md" 5).1.markSynced
          "job-1" "Notes/b.md" 9).2 = false))
       ∧ ((((((SyncState.mk [] none).markSynced "job-1" "Notes/a.md" 5).1.markSynced
          "job-1" "Notes/b.md" 9).1.syncedJobs.map SyncedJob.jobId).Nodup)))) :=
  ⟨by decide, by decide,
    markSynced_twice_single_record (SyncState.mk [] none) "job-1" "Notes/a.md" "Notes/b.md"
      5 9 (by decide) (by decide)⟩

/-- Claim C9: `prune 30` keeps exactly the records strictly newer than the
30-day cutoff (in their original order), removes exactly those on the old
side of the cutoff, reports the removed count, and invokes the persister
if and only if at least one record was removed. -/
theorem prune_thirty_days_spec (s : SyncState) (now : Nat) :
    ((s.prune 30 now).1.syncedJobs
      = s.syncedJobs.filter
          (fun j => decide (((now : Int) - 30 * 24 * 60 * 60 * 1000) < (j.syncedAt : Int))))
    ∧ ((s.prune 30 now).1.lastSyncTime = s.lastSyncTime)
    ∧ ((s.prune 30 now).2.1
      = (s.syncedJobs.filter
          (fun j => decide ((j.syncedAt : Int) ≤ (now : Int) - 30 * 24 * 60 * 60 * 1000))).length)
    ∧ ((s.prune 30 now).2.2 = true ↔ 0 < (s.prune 30 now).2.1) := by
  refine ⟨rfl, rfl, ?_, by simp [SyncState.prune]⟩
  simp only [SyncState.prune, Nat.cast_ofNat]
  rw [← length_filter_not_eq_sub s.syncedJobs
        (fun j => decide (((now : Int) - 30 * 24 * 60 * 60 * 1000) < (j.syncedAt : Int)))]
  congr 1
  apply List.filter_congr
  intro j _
  simp [← decide_not, Int.not_lt]

/-- Claim C4: for error count `e ≥ 1` and a configured interval within the
validated range (`CONSTRAINTS.MAX_POLL_INTERVAL = 300000`), the next delay
equals `max(interval, 5000·2^(e-1))` capped at 300000 ms; it is monotone
in `e` and never exceeds 300000 ms; with the counter reset to 0 the delay
is the configured interval; and the two scenario instances hold. -/
theorem backoff_delay_spec (i e : Nat) (he : 1 ≤ e) (hi : i ≤ 300000) :
    (nextPollDelay i e = min (max i (5000 * 2 ^ (e - 1))) 300000)
    ∧ (∀ e', e ≤ e' → nextPollDelay i e ≤ nextPollDelay i e')
    ∧ (nextPollDelay i e ≤ 300000)
    ∧ (nextPollDelay i 0 = i)
    ∧ (nextPollDelay 30000 2 = 30000)
    ∧ (nextPollDelay 30000 4 = 40000) := by
  have hdef : ∀ k, 1 ≤ k → nextPollDelay i k = max i (min (5000 * 2 ^ (k - 1)) 300000) := by
    intro k hk
    simp [nextPollDelay, Nat.lt_of_lt_of_le Nat.zero_lt_one hk]
  refine ⟨?_, ?_, ?_, by simp [nextPollDelay], by decide, by decide⟩
  · rw [hdef e he, max_min_distrib_left, max_eq_right hi]
  · intro e' hee'
    rw [hdef e he, hdef e' (Nat.le_trans he hee')]
    exact max_le_max (le_refl i)
      (min_le_min
        (Nat.mul_le_mul_left 5000
          (Nat.pow_le_pow_right (by decide) (Nat.sub_le_sub_right hee' 1)))
        (le_refl 300000))
  · rw [hdef e he]
    exact max_le hi (min_le_right _ _)

/-- Claim C4 witness: interval 30000 ms, two consecutive failures. -/
theorem backoff_delay_spec_witness :
    1 ≤ 2 ∧ 30000 ≤ 300000
    ∧ ((nextPollDelay 30000 2 = min (max 30000 (5000 * 2 ^ (2 - 1))) 300000)
    ∧ (∀ e', 2 ≤ e' → nextPollDelay 30000 2 ≤ nextPollDelay 30000 e')
    ∧ (nextPollDelay 30000 2 ≤ 300000)
    ∧ (nextPollDelay 30000 0 = 30000)
    ∧ (nextPollDelay 30000 2 = 30000)
    ∧ (nextPollDelay 30000 4 = 40000)) :=
  ⟨by decide, by decide, backoff_delay_spec 30000 2 (by decide) (by decide)⟩

lemma uniqueLoop_ok_not_contains (vault : List String) (pwe : String) :
    ∀ fuel counter p, uniqueLoop vault pwe counter fuel = .ok p →
      vault.contains p = false := by
  intro fuel
  induction fuel with
  | zero => intro counter p h; simp [uniqueLoop] at h
  | succ fuel' ih =>
      intro counter p h
      simp only [uniqueLoop] at h
      by_cases hc : vault.contains (mkSuffixPath pwe counter)
      · rw [if_pos hc] at h
        by_cases hcnt : 100 < counter + 1
        · rw [if_pos hcnt] at h; exact absurd h (by simp)
        · rw [if_neg hcnt] at h
          exact ih (counter + 1) p h
      · rw [if_neg hc] at h
        cases h
        simpa using hc

lemma getUniquePath_ok_not_contains (vault : List String) (basePath p : String)
    (h : getUniquePath vault basePath = .ok p) :
    vault.contains p = false := by
  by_cases hc : vault.contains basePath
  · rw [getUniquePath, if_pos hc] at h
    exact uniqueLoop_ok_not_contains vault (basePath.dropRight 3) 100 1 p h
  · rw [getUniquePath, if_neg hc] at h
    cases h
    simpa using hc

set_option maxRecDepth 100000 in
/-- Claim C8 counterexample: 101 materializations that all collide on the
base name `a.md` do NOT fail — the base path plus the suffixes 1..100
provide 101 distinct paths, so all 101 rounds succeed.  The explicit
error only fires on the 102nd materialization. -/
theorem collision_101_succeeds_counterexample :
    (materializeMany "a.md" [] 101).isOk = true := by rfl

set_option maxRecDepth 100000 in
/-- Claim C8 (amended): two materializations at the same sanitized base
name yield distinct paths, both present in the vault afterwards; and 102
materializations that all collide on one base name fail with the explicit
`'Too many files with the same name'` error instead of looping forever
(the first 101 succeed: the base path plus suffixes 1 through 100). -/
theorem unique_path_collision_spec (vault : List String) (basePath p1 p2 : String)
    (h1 : getUniquePath vault basePath = .ok p1)
    (h2 : getUniquePath (p1 :: vault) basePath = .ok p2) :
    (p1 ≠ p2
      ∧ (p2 :: p1 :: vault).contains p1 = true
      ∧ (p2 :: p1 :: vault).contains p2 = true)
    ∧ materializeMany "a.md" [] 102 = .error "Too many files with the same name" := by
  constructor
  · have hnm := getUniquePath_ok_not_contains (p1 :: vault) basePath p2 h2
    refine ⟨?_, by simp, by simp⟩
    intro hEq
    rw [← hEq] at hnm
    simp at hnm
  · rfl

/-- Claim C8 witness: a vault already holding `x.md`; the two rounds of
materialization return `x 1.md` and then `x 2.md`. -/
theorem unique_path_collision_spec_witness :
    getUniquePath ["x.md"] "x.md" = .ok "x 1.md"
    ∧ getUniquePath ["x 1.md", "x.md"] "x.md" = .ok "x 2.md"
    ∧ (("x 1.md" ≠ "x 2.md"
        ∧ (["x 2.md", "x 1.md", "x.md"]).contains "x 1.md" = true
        ∧ (["x 2.md", "x 1.md", "x.md"]).contains "x 2.md" = true)
      ∧ materializeMany "a.md" [] 102 = .error "Too many files with the same name") :=
  ⟨by rfl, by rfl,
    unique_path_collision_spec ["x.md"] "x.md" "x 1.md" "x 2.md" (by rfl) (by rfl)⟩

lemma syncJob_record_id (fetch : String → Except String ProcessedNote)
    (create : ProcessedNote → CreateNoteResult) (now : Nat)
    (ledger : SyncState) (job : Job) :
    (syncJob fetch create now ledger job).1.jobId = job.id := by
  unfold syncJob
  cases fetch job.id with
  | error e => rfl
  | ok p =>
      by_cases h : (create p).success
      · simp [h]
      · simp [h]

lemma syncJob_fetched (fetch : String → Except String ProcessedNote)
    (create : ProcessedNote → CreateNoteResult) (now : Nat)
    (ledger : SyncState) (job : Job) :
    (syncJob fetch create now ledger job).2.2.1 = [job.id] := by
  unfold syncJob
  cases fetch job.id with
  | error e => rfl
  | ok p =>
      by_cases h : (create p).success
      · simp [h]
      · simp [h]

lemma syncJob_created_sub (fetch : String → Except String ProcessedNote)
    (create : ProcessedNote → CreateNoteResult) (now : Nat)
    (ledger : SyncState) (job : Job) (x : String)
    (hx : x ∈ (syncJob fetch create now ledger job).2.2.2) :
    x = job.id := by
  unfold syncJob at hx
  cases h : fetch job.id with
  | error e => rw [h] at hx; simp at hx
  | ok p =>
      rw [h] at hx
      by_cases hc : (create p).success
      · simp [hc] at hx; exact hx
      · simp [hc] at hx; exact hx

lemma runJobs_results_ids (fetch : String → Except String ProcessedNote)
    (create : ProcessedNote → CreateNoteResult) (now : Nat) :
    ∀ (jobs : List Job) (ledger : SyncState),
      (runJobs fetch create now ledger jobs).1.map SyncJobRecord.jobId
        = jobs.map Job.id := by
  intro jobs
  induction jobs with
  | nil => intro ledger; rfl
  | cons job rest ih =>
      intro ledger
      simp [runJobs, syncJob_record_id, ih]

lemma runJobs_fetched (fetch : String → Except String ProcessedNote)
    (create : ProcessedNote → CreateNoteResult) (now : Nat) :
    ∀ (jobs : List Job) (ledger : SyncState),
      (runJobs fetch create now ledger jobs).2.2.1 = jobs.map Job.id := by
  intro jobs
  induction jobs with
  | nil => intro ledger; rfl
  | cons job rest ih =>
      intro ledger
      simp [runJobs, syncJob_fetched, ih]

lemma runJobs_created_sub (fetch : String → Except String ProcessedNote)
    (create : ProcessedNote → CreateNoteResult) (now : Nat) :
    ∀ (jobs : List Job) (ledger : SyncState) (x : String),
      x ∈ (runJobs fetch create now ledger jobs).2.2.2 → x ∈ jobs.map Job.id := by
  intro jobs
  induction jobs with
  | nil => intro ledger x hx; simp [runJobs] at hx
  | cons job rest ih =>
      intro ledger x hx
      simp only [runJobs, List.mem_append] at hx
      rcases hx with hx | hx
      · simp [syncJob_created_sub fetch create now ledger job x hx]
      · simp only [List.map_cons, List.mem_cons]
        exact Or.inr (ih _ x hx)

/-- Claim C2: a job id already present in the ledger at the start of a
poll cycle is filtered out before any per-job work — its result is never
fetched and no note creation is ever attempted for it. -/
theorem synced_job_never_refetched (jobs : List Job)
    (fetch : String → Except String ProcessedNote)
    (create : ProcessedNote → CreateNoteResult) (now : Nat)
    (ledger : SyncState) (j : String)
    (h : ledger.isSynced j = true) :
    j ∉ (syncCompletedJobs (.ok jobs) fetch create now ledger).2.2.fetched
    ∧ j ∉ (syncCompletedJobs (.ok jobs) fetch create now ledger).2.2.created := by
  have hnot : j ∉ (jobs.filter (fun job => !(ledger.isSynced job.id))).map Job.id := by
    intro hmem
    obtain ⟨job, hjob, hid⟩ := List.mem_map.mp hmem
    have hf := (List.mem_filter.mp hjob).2
    rw [hid, h] at hf
    simp at hf
  by_cases he : (jobs.filter (fun job => !(ledger.isSynced job.id))).isEmpty
  · simp [syncCompletedJobs, he]
  · constructor
    · simp only [syncCompletedJobs, he, if_false, Bool.false_eq_true]
      rw [runJobs_fetched]
      exact hnot
    · simp only [syncCompletedJobs, he, if_false, Bool.false_eq_true]
      intro hc
      exact hnot (runJobs_created_sub fetch create now _ ledger j hc)

/-- Claim C2 witness: a completed job whose id is already in the ledger is
neither fetched nor re-materialized. -/
theorem synced_job_never_refetched_witness :
    (SyncState.mk [⟨"job-1", 3, "Notes/a.md"⟩] (some 3)).isSynced "job-1" = true
    ∧ ("job-1" ∉ (syncCompletedJobs
        (.ok [{ id := "job-1", status := .completed, createdAt := "c",
                startedAt := none, completedAt := none, hasResult := true,
                filename := none, error := none, attempts := none }])
        fetchUnused createUnused 7
        (SyncState.mk [⟨"job-1", 3, "Notes/a.md"⟩] (some 3))).2.2.fetched
      ∧ "job-1" ∉ (syncCompletedJobs
        (.ok [{ id := "job-1", status := .completed, createdAt := "c",
                startedAt := none, completedAt := none, hasResult := true,
                filename := none, error := none, attempts := none }])
        fetchUnused createUnused 7
        (SyncState.mk [⟨"job-1", 3, "Notes/a.md"⟩] (some 3))).2.2.created) :=
  ⟨by decide,
    synced_job_never_refetched
      [{ id := "job-1", status := .completed, createdAt := "c",
         startedAt := none, completedAt := none, hasResult := true,
         filename := none, error := none, attempts := none }]
      fetchUnused createUnused 7
      (SyncState.mk [⟨"job-1", 3, "Notes/a.md"⟩] (some 3)) "job-1" (by decide)⟩

lemma syncCompletedJobs_ok_shape (jobs : List Job)
    (fetch : String → Except String ProcessedNote)
    (create : ProcessedNote → CreateNoteResult) (now : Nat) (ledger : SyncState) :
    ∃ r : SyncResult,
      (syncCompletedJobs (.ok jobs) fetch create now ledger).1 = .ok r
      ∧ r.results.map SyncJobRecord.jobId
          = (jobs.filter (fun job => !(ledger.isSynced job.id))).map Job.id
      ∧ r.syncedCount = (r.results.filter (fun x => x.success)).length
      ∧ r.failedCount = (r.results.filter (fun x => !x.success)).length := by
  by_cases he : (jobs.filter (fun job => !(ledger.isSynced job.id))).isEmpty
  · refine ⟨⟨0, 0, []⟩, by simp [syncCompletedJobs, he], ?_, by simp, by simp⟩
    rw [List.isEmpty_iff] at he
    simp [he]
  · refine ⟨SyncResult.mk
        (((runJobs fetch create now ledger
          (jobs.filter (fun job => !(ledger.isSynced job.id)))).1.filter
            (fun x => x.success)).length)
        (((runJobs fetch create now ledger
          (jobs.filter (fun job => !(ledger.isSynced job.id)))).1.filter
            (fun x => !x.success)).length)
        ((runJobs fetch create now ledger
          (jobs.filter (fun job => !(ledger.isSynced job.id)))).1),
      by simp [syncCompletedJobs, he], ?_, rfl, rfl⟩
    exact runJobs_results_ids fetch create now _ ledger

/-- Claim C6: with the cycle actually running (not paused, not already
polling, auto-sync on), a successful listing always ends the poll with the
consecutive-error counter reset to 0 — whatever the per-job outcomes —
and the cycle yields one result record per unsynced job (so one job's
fetch or note-creation failure aborts nothing and is recorded against
that job's id); the counter increments exactly when the listing call
itself throws. -/
theorem per_job_failure_isolated (settings : PluginSettings) (jobs : List Job)
    (fetch : String → Except String ProcessedNote)
    (create : ProcessedNote → CreateNoteResult) (now : Nat)
    (s : PollerState) (ledger : SyncState)
    (hpause : s.isPaused = false) (hpoll : s.isPolling = false)
    (hauto : settings.autoSync = true) :
    ((poll settings (.ok jobs) fetch create now s ledger).1.consecutiveErrors = 0)
    ∧ (∃ r : SyncResult,
        (syncCompletedJobs (.ok jobs) fetch create now ledger).1 = .ok r
        ∧ r.results.map SyncJobRecord.jobId
            = (jobs.filter (fun job => !(ledger.isSynced job.id))).map Job.id
        ∧ r.syncedCount = (r.results.filter (fun x => x.success)).length
        ∧ r.failedCount = (r.results.filter (fun x => !x.success)).length)
    ∧ (∀ e : String,
        (poll settings (.error e) fetch create now s ledger).1.consecutiveErrors
          = s.consecutiveErrors + 1) := by
  obtain ⟨r, hr, hids, hsc, hfc⟩ := syncCompletedJobs_ok_shape jobs fetch create now ledger
  refine ⟨?_, ⟨r, hr, hids, hsc, hfc⟩, ?_⟩
  · simp [poll, hpause, hpoll, hauto, hr]
  · intro e
    simp [poll, hpause, hpoll, hauto, syncCompletedJobs]
    split <;> rfl

/-- Claim C6 witness: two unsynced completed jobs, the first failing its
result fetch, the second succeeding. -/
theorem per_job_failure_isolated_witness :
    (PollerState.mk true false false false 0).isPaused = false
    ∧ ((PollerState.mk true false false false 0).isPolling = false
    ∧ exampleSettings.autoSync = true
    ∧ (((poll exampleSettings
          (.ok [{ id := "j1", status := .completed, createdAt := "c",
                  startedAt := none, completedAt := none, hasResult := true,
                  filename := none, error := none, attempts := none },
                { id := "j2", status := .completed, createdAt := "c",
                  startedAt := none, completedAt := none, hasResult := true,
                  filename := none, error := none, attempts := none }])
          (fun i => if i == "j1" then .error "fetch failed"
                    else .ok ⟨i, "T", "B", [], none, .other, "S", "t"⟩)
          (fun _ => ⟨true, some "Notes/T.md", none⟩) 7
          (PollerState.mk true false false false 0) emptyLedger).1.consecutiveErrors = 0)
      ∧ (∃ r : SyncResult,
          (syncCompletedJobs
            (.ok [{ id := "j1", status := .completed, createdAt := "c",
                    startedAt := none, completedAt := none, hasResult := true,
                    filename := none, error := none, attempts := none },
                  { id := "j2", status := .completed, createdAt := "c",
                    startedAt := none, completedAt := none, hasResult := true,
                    filename := none, error := none, attempts := none }])
            (fun i => if i == "j1" then .error "fetch failed"
                      else .ok ⟨i, "T", "B", [], none, .other, "S", "t"⟩)
            (fun _ => ⟨true, some "Notes/T.md", none⟩) 7 emptyLedger).1 = .ok r
          ∧ r.results.map SyncJobRecord.jobId
              = ([{ id := "j1", status := .completed, createdAt := "c",
                    startedAt := none, completedAt := none, hasResult := true,
                    filename := none, error := none, attempts := none },
                  { id := "j2", status := .completed, createdAt := "c",
                    startedAt := none, completedAt := none, hasResult := true,
                    filename := none, error := none, attempts := none }].filter
                    (fun job => !(emptyLedger.isSynced job.id))).map Job.id
          ∧ r.syncedCount = (r.results.filter (fun x => x.success)).length
          ∧ r.failedCount = (r.results.filter (fun x => !x.success)).length)
      ∧ (∀ e : String,
          (poll exampleSettings (.error e)
            (fun i => if i == "j1" then .error "fetch failed"
                      else .ok ⟨i, "T", "B", [], none, .other, "S", "t"⟩)
            (fun _ => ⟨true, some "Notes/T.md", none⟩) 7
            (PollerState.mk true false false false 0) emptyLedger).1.consecutiveErrors
            = (PollerState.mk true false false false 0).consecutiveErrors + 1))) :=
  ⟨rfl, rfl, rfl,
    per_job_failure_isolated exampleSettings
      [{ id := "j1", status := .completed, createdAt := "c",
         startedAt := none, completedAt := none, hasResult := true,
         filename := none, error := none, attempts := none },
       { id := "j2", status := .completed, createdAt := "c",
         startedAt := none, completedAt := none, hasResult := true,
         filename := none, error := none, attempts := none }]
      (fun i => if i == "j1" then .error "fetch failed"
                else .ok ⟨i, "T", "B", [], none, .other, "S", "t"⟩)
      (fun _ => ⟨true, some "Notes/T.md", none⟩) 7
      (PollerState.mk true false false false 0) emptyLedger rfl rfl rfl⟩

/-- Claim C1 (recording the code bug): when the fifth consecutive
full-cycle failure occurs, `poll` does set `isStopped`, but the source's
`finally` block still runs `scheduleNextPoll()`, so the timer is re-armed
rather than cleared; and since `poll` never checks `isStopped`, the next
timer fire still issues the completed-jobs listing network call.  This
contradicts the claimed stopped-on-error behaviour (and the source's own
"stopping poller" comment and log). -/
theorem poller_reschedules_after_circuit_break :
    ((poll exampleSettings (.error "list failed") fetchUnused createUnused 0
        stateAfterFourFailures emptyLedger).1.isStopped = true)
    ∧ ((poll exampleSettings (.error "list failed") fetchUnused createUnused 0
        stateAfterFourFailures emptyLedger).1.consecutiveErrors = 5)
    ∧ ((poll exampleSettings (.error "list failed") fetchUnused createUnused 0
        stateAfterFourFailures emptyLedger).1.timerArmed = true)
    ∧ ((poll exampleSettings (.ok []) fetchUnused createUnused 0
          (poll exampleSettings (.error "list failed") fetchUnused createUnused 0
            stateAfterFourFailures emptyLedger).1 emptyLedger).2.2.listCalled = true) :=
  ⟨rfl, rfl, rfl, rfl⟩

/-- Claim C10: when a poll cycle is already in flight (`isPolling` set),
`syncNow` performs no remote operation and no ledger mutation and returns
the empty result, leaving the poller state untouched. -/
theorem syncNow_noop_while_polling (listOutcome : Except String (List Job))
    (fetch : String → Except String ProcessedNote)
    (create : ProcessedNote → CreateNoteResult) (now : Nat)
    (s : PollerState) (ledger : SyncState)
    (h : s.isPolling = true) :
    syncNow listOutcome fetch create now s ledger
      = (.ok ⟨0, 0, []⟩, s, ledger, Trace.empty) := by
  simp [syncNow, h]

/-- Claim C10 witness: manual sync requested while a scheduled poll is in
flight. -/
theorem syncNow_noop_while_polling_witness :
    (PollerState.mk true true false false 0).isPolling = true
    ∧ syncNow (.ok []) fetchUnused createUnused 3
        (PollerState.mk true true false false 0) emptyLedger
      = (.ok ⟨0, 0, []⟩, PollerState.mk true true false false 0, emptyLedger, Trace.empty) :=
  ⟨rfl, syncNow_noop_while_polling (.ok []) fetchUnused createUnused 3
    (PollerState.mk true true false false 0) emptyLedger rfl⟩

lemma uploadLoop_all_ok (signedUrl : FileInfo → Except String SignedUrlResponse)
    (putFile : String → FileInfo → Except String Unit)
    (suF : FileInfo → SignedUrlResponse) :
    ∀ files : List FileInfo,
      (∀ f ∈ files, signedUrl f = .ok (suF f)) →
      (∀ f ∈ files, putFile (suF f).signedUrl f = .ok ()) →
      uploadLoop signedUrl putFile files
        = (files.map (fun f =>
            ⟨(suF f).path, f.name, jsOrStr f.contentType "image/jpeg", f.size⟩), []) := by
  intro files
  induction files with
  | nil => intro _ _; rfl
  | cons f rest ih =>
      intro h1 h2
      have hrest := ih (fun g hg => h1 g (List.mem_cons_of_mem f hg))
        (fun g hg => h2 g (List.mem_cons_of_mem f hg))
      have hf1 := h1 f (List.mem_cons_self f rest)
      have hf2 := h2 f (List.mem_cons_self f rest)
      simp [uploadLoop, hrest, hf1, hf2]

/-- Claim C5: when every one of the N files transfers successfully but
the single finalize call fails, the upload reports zero job ids and every
one of the N files as failed (with the finalize failure attributed to
each). -/
theorem finalize_failure_attributed_to_all (files : List FileInfo)
    (suF : FileInfo → SignedUrlResponse)
    (signedUrl : FileInfo → Except String SignedUrlResponse)
    (putFile : String → FileInfo → Except String Unit)
    (finalize : List UploadMetadata → Except String FinalizeResponse) (ferr : String)
    (h1 : ∀ f ∈ files, signedUrl f = .ok (suF f))
    (h2 : ∀ f ∈ files, putFile (suF f).signedUrl f = .ok ())
    (h3 : ∀ md, finalize md = .error ferr)
    (hne : files ≠ []) :
    (uploadImages signedUrl putFile finalize files).jobIds = []
    ∧ (uploadImages signedUrl putFile finalize files).failed
        = some (files.map (fun f => ⟨f.name, "Finalization failed"⟩)) := by
  have hloop := uploadLoop_all_ok signedUrl putFile suF files h1 h2
  have hmapne : (files.map (fun f =>
      (⟨(suF f).path, f.name, jsOrStr f.contentType "image/jpeg", f.size⟩ : UploadMetadata))).isEmpty = false := by
    cases files with
    | nil => exact absurd rfl hne
    | cons f rest => rfl
  constructor
  · simp [uploadImages, hloop, hmapne, h3]
  · simp [uploadImages, hloop, hmapne, h3]

/-- Claim C5 witness: two files, both transfers succeed, finalize
throws. -/
theorem finalize_failure_attributed_to_all_witness :
    (uploadImages (fun _ => .ok ⟨"https://bucket/put", "uploads/p"⟩)
        (fun _ _ => .ok ()) (fun _ => .error "boom")
        [⟨"a.jpg", "image/jpeg", 10⟩, ⟨"b.png", "image/png", 20⟩]).jobIds = []
    ∧ (uploadImages (fun _ => .ok ⟨"https://bucket/put", "uploads/p"⟩)
        (fun _ _ => .ok ()) (fun _ => .error "boom")
        [⟨"a.jpg", "image/jpeg", 10⟩, ⟨"b.png", "image/png", 20⟩]).failed
      = some [⟨"a.jpg", "Finalization failed"⟩, ⟨"b.png", "Finalization failed"⟩] :=
  finalize_failure_attributed_to_all
    [⟨"a.jpg", "image/jpeg", 10⟩, ⟨"b.png", "image/png", 20⟩]
    (fun _ => ⟨"https://bucket/put", "uploads/p"⟩)
    (fun _ => .ok ⟨"https://bucket/put", "uploads/p"⟩)
    (fun _ _ => .ok ()) (fun _ => .error "boom") "boom"
    (by intro f _; rfl) (by intro f _; rfl) (fun _ => rfl) (by simp)

/-- Claim C7 counterexample: a 401 response carrying the documented
structured error body is not turned into a typed taxonomy kind — `request`
throws a plain untyped `Error` (whose message is not even taken from the
structured body, since the body nests it under `error`); and a transport
failure lands in the very same untyped constructor, so the two are not
kept distinct by type. -/
theorem request_untyped_error_counterexample :
    (request (.ok ⟨401, none, some ⟨"INVALID_API_KEY", "Invalid API key"⟩⟩)
      = .error (.plainError "Request failed with status 401"))
    ∧ ((ClientError.plainError "Request failed with status 401").isTypedKind = false)
    ∧ (request (.error "getaddrinfo ENOTFOUND")
      = .error (.plainError "Network error: getaddrinfo ENOTFOUND"))
    ∧ ((ClientError.plainError "Network error: getaddrinfo ENOTFOUND").isTypedKind = false) :=
  ⟨rfl, rfl, rfl, rfl⟩

/-- Claim C7 (amended): the mapping of the taxonomy lives in
`parseApiError` — with a structured body present the `code` selects the
corresponding typed kind (unknown codes fall to Internal), and without
one the HTTP status code selects it (401, 404, 413, 429, else Internal) —
but `SyncClient.request` never invokes it: every status ≥ 400 throws a
plain untyped `Error` with `json.message` or
`'Request failed with status N'`, and a transport failure throws a plain
untyped `Error('Network error: …')`, distinguishable only by message
text. -/
theorem parse_api_error_mapping (m : String) (status : Nat) (resp : HttpResponse)
    (e : String) (h400 : 400 ≤ resp.status)
    (hs : status ≠ 401 ∧ status ≠ 404 ∧ status ≠ 413 ∧ status ≠ 429) :
    (parseApiErrorKind status (some ⟨"INVALID_API_KEY", m⟩) = .authentication
      ∧ parseApiErrorKind status (some ⟨"NOT_FOUND", m⟩) = .notFound
      ∧ parseApiErrorKind status (some ⟨"VALIDATION_ERROR", m⟩) = .validation
      ∧ parseApiErrorKind status (some ⟨"RATE_LIMIT_EXCEEDED", m⟩) = .rateLimited
      ∧ parseApiErrorKind status (some ⟨"FILE_TOO_LARGE", m⟩) = .fileTooLarge
      ∧ parseApiErrorKind status (some ⟨"UNSUPPORTED_FORMAT", m⟩) = .unsupportedFormat
      ∧ parseApiErrorKind status (some ⟨"JOB_NOT_FAILED", m⟩) = .jobNotFailed
      ∧ parseApiErrorKind status (some ⟨"IMAGE_EXPIRED", m⟩) = .imageExpired
      ∧ parseApiErrorKind status (some ⟨"SOMETHING_ELSE", m⟩) = .internal)
    ∧ (parseApiErrorKind 401 none = .authentication
      ∧ parseApiErrorKind 404 none = .notFound
      ∧ parseApiErrorKind 413 none = .fileTooLarge
      ∧ parseApiErrorKind 429 none = .rateLimited
      ∧ parseApiErrorKind status none = .internal)
    ∧ (request (.ok resp)
        = .error (.plainError
            (jsOr resp.jsonMessage ("Request failed with status " ++ toString resp.status))))
    ∧ (request (.error e) = .error (.plainError ("Network error: " ++ e))) := by
  obtain ⟨h1, h2, h3, h4⟩ := hs
  refine ⟨⟨rfl, rfl, rfl, rfl, rfl, rfl, rfl, rfl, rfl⟩, ⟨rfl, rfl, rfl, rfl, ?_⟩, ?_, rfl⟩
  · simp only [parseApiErrorKind]
    rw [if_neg (by simpa using h1), if_neg (by simpa using h2),
      if_neg (by simpa using h3), if_neg (by simpa using h4)]
  · simp [request, h400]

/-- Claim C7 witness: a 500 response and a concrete transport failure. -/
theorem parse_api_error_mapping_witness :
    400 ≤ (HttpResponse.mk 500 (some "oops") none).status
    ∧ (((500 : Nat) ≠ 401 ∧ (500 : Nat) ≠ 404 ∧ (500 : Nat) ≠ 413 ∧ (500 : Nat) ≠ 429)
    ∧ ((parseApiErrorKind 500 (some ⟨"INVALID_API_KEY", "m"⟩) = .authentication
      ∧ parseApiErrorKind 500 (some ⟨"NOT_FOUND", "m"⟩) = .notFound
      ∧ parseApiErrorKind 500 (some ⟨"VALIDATION_ERROR", "m"⟩) = .validation
      ∧ parseApiErrorKind 500 (some ⟨"RATE_LIMIT_EXCEEDED", "m"⟩) = .rateLimited
      ∧ parseApiErrorKind 500 (some ⟨"FILE_TOO_LARGE", "m"⟩) = .fileTooLarge
      ∧ parseApiErrorKind 500 (some ⟨"UNSUPPORTED_FORMAT", "m"⟩) = .unsupportedFormat
      ∧ parseApiErrorKind 500 (some ⟨"JOB_NOT_FAILED", "m"⟩) = .jobNotFailed
      ∧ parseApiErrorKind 500 (some ⟨"IMAGE_EXPIRED", "m"⟩) = .imageExpired
      ∧ parseApiErrorKind 500 (some ⟨"SOMETHING_ELSE", "m"⟩) = .internal)
    ∧ (parseApiErrorKind 401 none = .authentication
      ∧ parseApiErrorKind 404 none = .notFound
      ∧ parseApiErrorKind 413 none = .fileTooLarge
      ∧ parseApiErrorKind 429 none = .rateLimited
      ∧ parseApiErrorKind 500 none = .internal)
    ∧ (request (.ok (HttpResponse.mk 500 (some "oops") none))
        = .error (.plainError
            (jsOr (some "oops") ("Request failed with status " ++ toString 500))))
    ∧ (request (.error "ETIMEDOUT")
        = .error (.plainError ("Network error: " ++ "ETIMEDOUT"))))) :=
  ⟨by decide, by decide,
    parse_api_error_mapping "m" 500 (HttpResponse.mk 500 (some "oops") none)
      "ETIMEDOUT" (by decide) (by decide)⟩

